import Mathlib

/-!
Verification development for the simulated area-detector driver
(ADApp/simDetectorSrc/simDetector.cpp).

The embedding is shallow: the param library becomes a record of named
fields, machine integers become Int with explicit wrap-around at the
type width, C doubles are idealized as exact rationals, and the
background acquisition loop becomes a fuel-indexed step function.
-/

set_option maxHeartbeats 1000000

namespace SimDetector

/-- The eight supported numeric representations (NDDataType in NDArray.h,
in declaration order, so the integer codes are 0..7). -/
inductive NDDataType
  | int8 | uint8 | int16 | uint16 | int32 | uint32 | float32 | float64
deriving DecidableEq

/-- Decode the integer value of the ADDataType parameter; values outside
0..7 denote an unsupported representation (no case in the switch of
computeImage). -/
def decodeDataType (d : Int) : Option NDDataType :=
  if d = 0 then some .int8
  else if d = 1 then some .uint8
  else if d = 2 then some .int16
  else if d = 3 then some .uint16
  else if d = 4 then some .int32
  else if d = 5 then some .uint32
  else if d = 6 then some .float32
  else if d = 7 then some .float64
  else none

/-- Bytes per sample of each representation. -/
def bytesPer : NDDataType → Nat
  | .int8 => 1
  | .uint8 => 1
  | .int16 => 2
  | .uint16 => 2
  | .int32 => 4
  | .uint32 => 4
  | .float32 => 4
  | .float64 => 8

/-- Bytes per sample for a raw dataType code; 0 for an unsupported code. -/
def bytesOf (d : Int) : Nat :=
  match decodeDataType d with
  | some t => bytesPer t
  | none => 0

/-- Truncation toward zero of a rational, as in a C cast from double to an
integer type. -/
def ratTrunc (x : ℚ) : Int :=
  if 0 ≤ x then ⌊x⌋ else ⌈x⌉

/-- Reduce an integer into the unsigned range of width w (wrap-around). -/
def wrapU (w : Nat) (x : Int) : Int := x % (2 ^ w : Int)

/-- Reduce an integer into the signed two-complement range of width w
(wrap-around, not saturation). -/
def wrapS (w : Nat) (x : Int) : Int :=
  let m := x % (2 ^ w : Int)
  if m < 2 ^ (w - 1) then m else m - 2 ^ w

/-- The cast of a (double-valued) quantity to a target representation:
truncate toward zero and wrap for the integer kinds; the floating kinds
are idealized as exact rationals. -/
def castTo : NDDataType → ℚ → ℚ
  | .int8, x => (wrapS 8 (ratTrunc x) : Int)
  | .uint8, x => (wrapU 8 (ratTrunc x) : Int)
  | .int16, x => (wrapS 16 (ratTrunc x) : Int)
  | .uint16, x => (wrapU 16 (ratTrunc x) : Int)
  | .int32, x => (wrapS 32 (ratTrunc x) : Int)
  | .uint32, x => (wrapU 32 (ratTrunc x) : Int)
  | .float32, x => x
  | .float64, x => x

/-- The parameter library of the driver, one named field per parameter id
used by simDetector.cpp (integer parameters as Int, double parameters as
exact rationals). -/
structure Params where
  binX : Int
  binY : Int
  minX : Int
  minY : Int
  sizeX : Int
  sizeY : Int
  reverseX : Int
  reverseY : Int
  maxSizeX : Int
  maxSizeY : Int
  dataType : Int
  imageSize : Int
  imageSizeX : Int
  imageSizeY : Int
  resetImage : Int
  acquire : Int
  adStatus : Int
  imageMode : Int
  numImages : Int
  imageCounter : Int
  gain : ℚ
  gainX : ℚ
  gainY : ℚ
  acquireTime : ℚ
  acquirePeriod : ℚ
deriving DecidableEq

/-- The raw NDArray owned by the driver (pRaw): its two dimensions fixed
at construction, its malloc-ed data block (none models a null pointer)
and the dataSize byte count. -/
structure NDRawArray where
  nx : Nat
  ny : Nat
  pData : Option (List ℚ)
  dataSize : Nat
  dataType : Int
deriving DecidableEq

/-- One output dimension descriptor (NDDimension_t). -/
structure NDDimension where
  size : Int
  binning : Int
  offset : Int
  reverse : Int
deriving DecidableEq

/-- An output frame (the NDArray produced by the pool convert call). -/
structure NDFrame where
  data : Option (List ℚ)
  dim0 : NDDimension
  dim1 : NDDimension
  dataType : Int
  uniqueId : Int
deriving DecidableEq

/-- The whole driver state: parameter library, raw buffer, the current
output frame (pArrays[0]) and the imagesRemaining member. -/
structure SimDet where
  params : Params
  raw : NDRawArray
  outFrame : Option NDFrame
  imagesRemaining : Int
deriving DecidableEq

/-- Status of an asyn call. -/
inductive AsynStatus
  | success
  | error
deriving DecidableEq

/-- simDetector::computeArray for a given representation: reads gain,
gainX, gainY, resetImage and exposure time from the parameter library;
if the reset flag is set it rewrites the first maxSizeY * maxSizeX cells
with the gradient plus inc, otherwise it adds inc in place to each of
those cells. -/
def computeArray (ty : NDDataType) (p : Params) (maxSizeX maxSizeY : Int)
    (buf : List ℚ) : List ℚ :=
  let inc := castTo ty (p.gain * p.acquireTime * 1000)
  if p.resetImage ≠ 0 then
    ((List.range maxSizeY.toNat).flatMap fun (i : Nat) =>
      (List.range maxSizeX.toNat).map fun (j : Nat) =>
        castTo ty ((j : ℚ) * p.gainX + (i : ℚ) * p.gainY + inc))
      ++ buf.drop (maxSizeY.toNat * maxSizeX.toNat)
  else
    ((buf.take (maxSizeY.toNat * maxSizeX.toNat)).map fun v =>
      castTo ty (v + inc))
      ++ buf.drop (maxSizeY.toNat * maxSizeX.toNat)

/-- totalBytes reported by NDArray::getInfo on the raw array: the product
of its dimensions times the sample width of its dataType. -/
def requiredBytes (r : NDRawArray) : Nat :=
  r.nx * r.ny * bytesOf r.dataType

/-- simDetector::allocateBuffer: if getInfo totalBytes exceeds dataSize,
free the old block, install the malloc result (fresh; none models a
failed malloc), set dataSize to totalBytes, and report an error exactly
when the pointer is null.  Otherwise leave the array untouched. -/
def allocateBuffer (fresh : Option (List ℚ)) (r : NDRawArray) :
    AsynStatus × NDRawArray :=
  let tb := requiredBytes r
  if tb > r.dataSize then
    let r2 : NDRawArray := { r with pData := fresh, dataSize := tb }
    (if fresh.isSome then .success else .error, r2)
  else (.success, r)

/-- The six geometry values kept in local variables by computeImage while
it clamps them. -/
structure GeomLocals where
  binX : Int
  binY : Int
  minX : Int
  minY : Int
  sizeX : Int
  sizeY : Int
deriving DecidableEq

/-- One clamping state: the local variables of computeImage together
with the parameter store.  The local maxSizeX and maxSizeY are read once
and never written, so they are taken from the store directly. -/
abbrev ClampState := GeomLocals × Params

/-- Source block: if binX is below 1, force it to 1 and write it back. -/
def clampBinX (s : ClampState) : ClampState :=
  if s.1.binX < 1 then ({ s.1 with binX := 1 }, { s.2 with binX := 1 })
  else s

/-- Source block: if binY is below 1, force it to 1 and write it back. -/
def clampBinY (s : ClampState) : ClampState :=
  if s.1.binY < 1 then ({ s.1 with binY := 1 }, { s.2 with binY := 1 })
  else s

/-- Source block: if minX is negative, force it to 0 and write it
back. -/
def clampMinXLow (s : ClampState) : ClampState :=
  if s.1.minX < 0 then ({ s.1 with minX := 0 }, { s.2 with minX := 0 })
  else s

/-- Source block: if minY is negative, force it to 0 and write it
back. -/
def clampMinYLow (s : ClampState) : ClampState :=
  if s.1.minY < 0 then ({ s.1 with minY := 0 }, { s.2 with minY := 0 })
  else s

/-- Source block: if minX exceeds maxSizeX-1, force it to maxSizeX-1 and
write it back. -/
def clampMinXHigh (s : ClampState) : ClampState :=
  if s.1.minX > s.2.maxSizeX - 1 then
    ({ s.1 with minX := s.2.maxSizeX - 1 },
     { s.2 with minX := s.2.maxSizeX - 1 })
  else s

/-- Source block: if minY exceeds maxSizeY-1, force it to maxSizeY-1 and
write it back. -/
def clampMinYHigh (s : ClampState) : ClampState :=
  if s.1.minY > s.2.maxSizeY - 1 then
    ({ s.1 with minY := s.2.maxSizeY - 1 },
     { s.2 with minY := s.2.maxSizeY - 1 })
  else s

/-- Source block: if minX+sizeX exceeds maxSizeX, shrink sizeX to
maxSizeX-minX and write it back. -/
def clampSizeX (s : ClampState) : ClampState :=
  if s.1.minX + s.1.sizeX > s.2.maxSizeX then
    ({ s.1 with sizeX := s.2.maxSizeX - s.1.minX },
     { s.2 with sizeX := s.2.maxSizeX - s.1.minX })
  else s

/-- Source block: if minY+sizeY exceeds maxSizeY, shrink sizeY to
maxSizeY-minY and write it back. -/
def clampSizeY (s : ClampState) : ClampState :=
  if s.1.minY + s.1.sizeY > s.2.maxSizeY then
    ({ s.1 with sizeY := s.2.maxSizeY - s.1.minY },
     { s.2 with sizeY := s.2.maxSizeY - s.1.minY })
  else s

/-- The clamping section of simDetector::computeImage: read the geometry
parameters into locals, apply the eight corrections in source order
(each written back to the store), and return the final locals together
with the updated store. -/
def clampGeometry (p : Params) : GeomLocals × Params :=
  clampSizeY (clampSizeX (clampMinYHigh (clampMinXHigh (clampMinYLow
    (clampMinXLow (clampBinY (clampBinX
      (⟨p.binX, p.binY, p.minX, p.minY, p.sizeX, p.sizeY⟩, p))))))))

/-- Modelled from the spec: NDArrayPool::convert is an external library
collaborator (spec section 4.2 and 4.3 step 4); it extracts the region of
interest from the raw array per the two dimension descriptors, producing
a frame of size sizeX/binX by sizeY/binY in the same representation.  The
model packages the source samples with the descriptors and the output
sizes; the binning arithmetic itself is outside the repository. -/
def convertModel (r : NDRawArray) (d0 d1 : NDDimension) (dt : Int) :
    NDFrame :=
  { data := r.pData
    dim0 := { d0 with size := d0.size / d0.binning }
    dim1 := { d1 with size := d1.size / d1.binning }
    dataType := dt
    uniqueId := 0 }

/-- simDetector::computeImage: clamp the geometry, set the raw array
dataType, grow the raw buffer (abort on allocation failure), dispatch the
synthesis switch on the representation (no case for an unsupported code),
convert the raw array into a fresh output frame replacing the previous
one, update the output size parameters and clear the reset flag. -/
def computeImage (fresh : Option (List ℚ)) (d : SimDet) :
    AsynStatus × SimDet :=
  let gp := clampGeometry d.params
  let g := gp.1
  let p := gp.2
  let raw0 : NDRawArray := { d.raw with dataType := p.dataType }
  let ab := allocateBuffer fresh raw0
  if ab.1 = .error then
    (.error, { d with params := p, raw := ab.2 })
  else
    let raw1 := ab.2
    let raw2 : NDRawArray :=
      match decodeDataType p.dataType with
      | some ty =>
          { raw1 with
            pData := raw1.pData.map fun buf =>
              computeArray ty p p.maxSizeX p.maxSizeY buf }
      | none => raw1
    let d0 : NDDimension :=
      { size := g.sizeX, binning := g.binX, offset := g.minX,
        reverse := p.reverseX }
    let d1 : NDDimension :=
      { size := g.sizeY, binning := g.binY, offset := g.minY,
        reverse := p.reverseY }
    let frame := convertModel raw2 d0 d1 p.dataType
    let outBytes :=
      (frame.dim0.size * frame.dim1.size).toNat * bytesOf p.dataType
    let p2 : Params :=
      { p with
        imageSize := (outBytes : Int)
        imageSizeX := frame.dim0.size
        imageSizeY := frame.dim1.size
        resetImage := 0 }
    (.success, { d with params := p2, raw := raw2, outFrame := some frame })

/-- How a timed event wait ended: by timeout or by an explicit stop
signal.  The source discards the return status of both timed waits. -/
inductive WaitResult
  | timedOut
  | stopped
deriving DecidableEq

/-- The production-loop state together with a ghost count of frames
delivered downstream (doCallbacksGenericPointer calls). -/
structure TaskState where
  det : SimDet
  delivered : Nat
deriving DecidableEq

/-- The driver state just after the loop sets ADStatus to Acquire at the
top of an acquiring iteration. -/
def exposingState (d : SimDet) : SimDet :=
  { d with params := { d.params with adStatus := 1 } }

/-- One acquiring iteration of simDetector::simTask (entered with the
acquire flag set): set status Acquire, wait out the exposure (the wait
result is discarded by the source), build the frame; on failure continue
with no delivery; on success bump the image counter, stamp and deliver
the frame, decrement a positive imagesRemaining, clear the acquire flag
when it reaches zero, otherwise set status Readout and wait out the
period (result again discarded). -/
def simTaskIteration (expWait readoutWait : WaitResult)
    (fresh : Option (List ℚ)) (ts : TaskState) : TaskState :=
  let d0 := exposingState ts.det
  let ci := computeImage fresh d0
  if ci.1 = .error then
    { ts with det := ci.2 }
  else
    let d1 := ci.2
    let counter := d1.params.imageCounter + 1
    let p2 := { d1.params with imageCounter := counter }
    let frame2 := d1.outFrame.map fun fr => { fr with uniqueId := counter }
    let ir := if d1.imagesRemaining > 0 then d1.imagesRemaining - 1
              else d1.imagesRemaining
    let p3 := if ir = 0 then { p2 with acquire := 0 }
              else { p2 with adStatus := 2 }
    let d2 : SimDet :=
      { d1 with params := p3, imagesRemaining := ir, outFrame := frame2 }
    { det := d2, delivered := ts.delivered + 1 }

/-- One loop iteration under timed-out waits and a malloc that always
succeeds. -/
def simTaskStep (ts : TaskState) : TaskState :=
  simTaskIteration .timedOut .timedOut (some []) ts

/-- The production loop, fuel-indexed: at the top of each iteration check
the acquire flag and stop (block at the idle wait) when it is clear. -/
def simTaskRun : Nat → TaskState → TaskState
  | 0, ts => ts
  | fuel + 1, ts =>
      if ts.det.params.acquire ≠ 0 then simTaskRun fuel (simTaskStep ts)
      else ts

/-- The asyn reason codes writeInt32 dispatches on (plus a catch-all for
every other integer parameter). -/
inductive AsynFunc
  | adAcquire
  | adBinX
  | adBinY
  | adMinX
  | adMinY
  | adSizeX
  | adSizeY
  | adDataType
  | adImageMode
  | simResetImage
  | other
deriving DecidableEq

/-- The asyn reason codes writeFloat64 dispatches on (plus a catch-all
for every other double parameter). -/
inductive DoubleFunc
  | adAcquireTime
  | adAcquirePeriod
  | adGain
  | simGainX
  | simGainY
  | otherDouble
deriving DecidableEq

/-- Observable actions of a parameter-write call, in program order. -/
inductive Event
  | storeInt (f : AsynFunc) (v : Int)
  | storeDouble (f : DoubleFunc) (v : ℚ)
  | setResetFlag
  | signalStart
  | signalStop
  | notifyObservers
deriving DecidableEq

/-- setIntegerParam dispatched on the reason code. -/
def setIntParam (f : AsynFunc) (v : Int) (p : Params) : Params :=
  match f with
  | .adAcquire => { p with acquire := v }
  | .adBinX => { p with binX := v }
  | .adBinY => { p with binY := v }
  | .adMinX => { p with minX := v }
  | .adMinY => { p with minY := v }
  | .adSizeX => { p with sizeX := v }
  | .adSizeY => { p with sizeY := v }
  | .adDataType => { p with dataType := v }
  | .adImageMode => { p with imageMode := v }
  | .simResetImage => { p with resetImage := v }
  | .other => p

/-- getIntegerParam dispatched on the reason code. -/
def getIntParam (f : AsynFunc) (p : Params) : Int :=
  match f with
  | .adAcquire => p.acquire
  | .adBinX => p.binX
  | .adBinY => p.binY
  | .adMinX => p.minX
  | .adMinY => p.minY
  | .adSizeX => p.sizeX
  | .adSizeY => p.sizeY
  | .adDataType => p.dataType
  | .adImageMode => p.imageMode
  | .simResetImage => p.resetImage
  | .other => 0

/-- setDoubleParam dispatched on the reason code. -/
def setDblParam (f : DoubleFunc) (v : ℚ) (p : Params) : Params :=
  match f with
  | .adAcquireTime => { p with acquireTime := v }
  | .adAcquirePeriod => { p with acquirePeriod := v }
  | .adGain => { p with gain := v }
  | .simGainX => { p with gainX := v }
  | .simGainY => { p with gainY := v }
  | .otherDouble => p

/-- getDoubleParam dispatched on the reason code. -/
def getDblParam (f : DoubleFunc) (p : Params) : ℚ :=
  match f with
  | .adAcquireTime => p.acquireTime
  | .adAcquirePeriod => p.acquirePeriod
  | .adGain => p.gain
  | .simGainX => p.gainX
  | .simGainY => p.gainY
  | .otherDouble => 0

/-- The imagesRemaining assignment made from an image mode code (the C
switch has no default, so an unknown mode leaves the member alone). -/
def modeImagesRemaining (imageMode numImages current : Int) : Int :=
  if imageMode = 0 then 1
  else if imageMode = 1 then numImages
  else if imageMode = 2 then -1
  else current

/-- simDetector::writeInt32: store the value first, then apply the side
effects of the reason code (start or stop signalling for ADAcquire, the
reset flag for the geometry and data-type parameters, a live
imagesRemaining recompute for ADImageMode), then notify observers.
Returns the new state and the trace of observable actions in program
order. -/
def writeInt32 (f : AsynFunc) (v : Int) (d : SimDet) :
    SimDet × List Event :=
  let p0 := setIntParam f v d.params
  match f with
  | .adAcquire =>
      let adstatus := p0.adStatus
      let startNow := v ≠ 0 ∧ adstatus = 0
      let stopNow := v = 0 ∧ adstatus ≠ 0
      let ir := if startNow then
          modeImagesRemaining p0.imageMode p0.numImages d.imagesRemaining
        else d.imagesRemaining
      let evs := (if startNow then [Event.signalStart] else [])
        ++ (if stopNow then [Event.signalStop] else [])
      ({ d with params := p0, imagesRemaining := ir },
       [Event.storeInt f v] ++ evs ++ [Event.notifyObservers])
  | .adBinX | .adBinY | .adMinX | .adMinY | .adSizeX | .adSizeY
  | .adDataType =>
      ({ d with params := { p0 with resetImage := 1 } },
       [Event.storeInt f v, Event.setResetFlag, Event.notifyObservers])
  | .adImageMode =>
      let ir := modeImagesRemaining v p0.numImages d.imagesRemaining
      ({ d with params := p0, imagesRemaining := ir },
       [Event.storeInt f v, Event.notifyObservers])
  | _ =>
      ({ d with params := p0 },
       [Event.storeInt f v, Event.notifyObservers])

/-- simDetector::writeFloat64: store the value first, then set the reset
flag for the exposure-time and gain parameters, then notify observers. -/
def writeFloat64 (f : DoubleFunc) (v : ℚ) (d : SimDet) :
    SimDet × List Event :=
  let p0 := setDblParam f v d.params
  match f with
  | .adAcquireTime | .adGain | .simGainX | .simGainY =>
      ({ d with params := { p0 with resetImage := 1 } },
       [Event.storeDouble f v, Event.setResetFlag, Event.notifyObservers])
  | _ =>
      ({ d with params := p0 },
       [Event.storeDouble f v, Event.notifyObservers])

/-- The per-frame countdown applied after a delivery: a positive
imagesRemaining is decremented, zero and negative values are left
alone. -/
def stepIR (i : Int) : Int := if i > 0 then i - 1 else i

/-- A small idle driver state used to run acquisition scenarios: one by
one pixel geometry, unsigned 8-bit representation, unit gains, the given
image mode and number-of-images, status Idle and the acquire flag
clear. -/
def baseDet (imageMode numImages : Int) : SimDet :=
  { params :=
      { binX := 1, binY := 1, minX := 0, minY := 0, sizeX := 1, sizeY := 1
        reverseX := 0, reverseY := 0, maxSizeX := 1, maxSizeY := 1
        dataType := 1, imageSize := 0, imageSizeX := 1, imageSizeY := 1
        resetImage := 1, acquire := 0, adStatus := 0
        imageMode := imageMode, numImages := numImages, imageCounter := 0
        gain := 1, gainX := 1, gainY := 1, acquireTime := 1,
        acquirePeriod := 1 }
    raw := { nx := 1, ny := 1, pData := some [0], dataSize := 1,
             dataType := 1 }
    outFrame := none
    imagesRemaining := 0 }

/-- The task state right after an external ADAcquire=1 write on the idle
base state. -/
def startTS (imageMode numImages : Int) : TaskState :=
  { det := (writeInt32 .adAcquire 1 (baseDet imageMode numImages)).1,
    delivered := 0 }

/-- The geometry and data-type reason codes of the writeInt32 reset-flag
case. -/
def geomFuncs : List AsynFunc :=
  [.adBinX, .adBinY, .adMinX, .adMinY, .adSizeX, .adSizeY, .adDataType]

/-- The exposure-time and gain reason codes of the writeFloat64
reset-flag case. -/
def gainFuncs : List DoubleFunc :=
  [.adAcquireTime, .adGain, .simGainX, .simGainY]

/-! ### Indexing lemmas for the synthesized gradient grid -/

lemma cell_index_lt {X Y i j : Nat} (hi : i < Y) (hj : j < X) :
    i * X + j < Y * X := by
  have hs : (i + 1) * X = i * X + X := by rw [Nat.add_mul, Nat.one_mul]
  have h2 : (i + 1) * X ≤ Y * X := Nat.mul_le_mul_right X (by omega)
  omega

lemma length_gridRows (g : Nat → Nat → ℚ) (X : Nat) :
    ∀ Y : Nat,
      ((List.range Y).flatMap fun a => (List.range X).map (g a)).length
        = Y * X := by
  intro Y
  induction Y with
  | zero => simp
  | succ n ih =>
      rw [List.range_succ, List.flatMap_append]
      simp [ih, Nat.succ_mul]

lemma getElem_gridRows (g : Nat → Nat → ℚ) (X : Nat) :
    ∀ Y i j : Nat, i < Y → j < X →
      ((List.range Y).flatMap fun a => (List.range X).map (g a))[i * X + j]?
        = some (g i j) := by
  intro Y
  induction Y with
  | zero => intro i j hi _; exact absurd hi (Nat.not_lt_zero i)
  | succ n ih =>
      intro i j hi hj
      rw [List.range_succ, List.flatMap_append]
      by_cases hin : i < n
      · rw [List.getElem?_append_left]
        · exact ih i j hin hj
        · rw [length_gridRows]
          exact cell_index_lt hin hj
      · have hieq : i = n := by omega
        subst hieq
        rw [List.getElem?_append_right]
        · rw [length_gridRows, Nat.add_sub_cancel_left]
          simp only [List.flatMap_cons, List.flatMap_nil, List.append_nil,
            List.getElem?_map]
          rw [List.getElem?_range hj]
          rfl
        · rw [length_gridRows]
          exact Nat.le_add_right (i * X) j

/-! ### C1: the reset-branch pixel formula -/

/-- C1: for every supported numeric representation, every geometry and
every gain, gainX, gainY and exposure time, when the reset flag is set
the raw-buffer sample the synthesizer writes at row i, column j equals
the cast of j * gainX + i * gainY + inc, where inc is the cast of
gain * exposureTime * 1000 performed before the per-pixel sum. -/
theorem computeArray_reset_pixel (ty : NDDataType) (p : Params)
    (maxSizeX maxSizeY : Int) (buf : List ℚ) (i j : Nat)
    (hreset : p.resetImage ≠ 0)
    (hi : (i : Int) < maxSizeY) (hj : (j : Int) < maxSizeX) :
    (computeArray ty p maxSizeX maxSizeY buf)[i * maxSizeX.toNat + j]? =
      some (castTo ty ((j : ℚ) * p.gainX + (i : ℚ) * p.gainY
        + castTo ty (p.gain * p.acquireTime * 1000))) := by
  have hi' : i < maxSizeY.toNat := by omega
  have hj' : j < maxSizeX.toNat := by omega
  unfold computeArray
  rw [if_pos hreset, List.getElem?_append_left]
  · exact getElem_gridRows _ _ _ i j hi' hj'
  · rw [length_gridRows]
    exact cell_index_lt hi' hj'

/-- Parameters for the C1 witness: gainX 2, gainY 3, gain 1, exposure
time 1/200 (so inc casts to 5), reset flag set. -/
def resetWitnessParams : Params :=
  { (baseDet 0 0).params with
    gainX := 2, gainY := 3, resetImage := 1, gain := 1,
    acquireTime := 1/200 }

/-- Witness for C1: a 3-wide, 2-high geometry; the sample at row 1,
column 2 is 2*2 + 1*3 + 5 = 12. -/
theorem computeArray_reset_pixel_witness :
    (computeArray .uint8 resetWitnessParams 3 2
        [9, 9, 9, 9, 9, 9])[1 * (3 : Int).toNat + 2]?
      = some (castTo .uint8 ((2 : ℚ) * resetWitnessParams.gainX
          + (1 : ℚ) * resetWitnessParams.gainY
          + castTo .uint8 (resetWitnessParams.gain
              * resetWitnessParams.acquireTime * 1000))) := by
  exact computeArray_reset_pixel .uint8 resetWitnessParams 3 2
    [9, 9, 9, 9, 9, 9] 1 2
    (by with_unfolding_all decide) (by decide) (by decide)

/-! ### C4: the accumulation branch adds inc in the representation -/

/-- C4: with the reset flag clear, every raw-buffer sample of the next
frame equals the corresponding sample of the previous frame plus the
cast of gain * exposureTime * 1000, the sum being reduced by the
representation's cast (wrap-around for the integer kinds, exact for the
idealized floating kinds), never saturation. -/
theorem computeArray_accumulate (ty : NDDataType) (p : Params)
    (maxSizeX maxSizeY : Int) (buf : List ℚ) (k : Nat)
    (hreset : p.resetImage = 0)
    (hk : k < maxSizeY.toNat * maxSizeX.toNat) :
    (computeArray ty p maxSizeX maxSizeY buf)[k]? =
      buf[k]?.map fun v =>
        castTo ty (v + castTo ty (p.gain * p.acquireTime * 1000)) := by
  have hcond : ¬(p.resetImage ≠ 0) := by simp [hreset]
  unfold computeArray
  rw [if_neg hcond]
  by_cases hlen : k < buf.length
  · rw [List.getElem?_append_left, List.getElem?_map,
      List.getElem?_take_of_lt hk]
    rw [List.length_map, List.length_take]
    omega
  · have hnone : buf[k]? = none := by
      rw [List.getElem?_eq_none]
      omega
    rw [hnone]
    have hdrop : buf.drop (maxSizeY.toNat * maxSizeX.toNat) = [] := by
      rw [List.drop_eq_nil_iff]
      omega
    rw [hdrop, List.append_nil, List.getElem?_eq_none]
    · rfl
    · rw [List.length_map, List.length_take]
      omega

/-- Parameters for the C4 witness: gain 1, exposure time 1/100 (inc
casts to 10), reset flag clear. -/
def accumWitnessParams : Params :=
  { (baseDet 0 0).params with
    resetImage := 0, gain := 1, acquireTime := 1/100 }

/-- Witness for C4: an unsigned 8-bit sample 250 with inc 10 becomes
260 mod 256 = 4 (wrap-around, not saturation at 255). -/
theorem computeArray_accumulate_witness :
    (computeArray .uint8 accumWitnessParams 1 1 [250])[0]?
      = ([(250 : ℚ)])[0]?.map (fun v =>
          castTo .uint8 (v + castTo .uint8 (accumWitnessParams.gain
            * accumWitnessParams.acquireTime * 1000))) := by
  exact computeArray_accumulate .uint8 accumWitnessParams 1 1 [250] 0
    rfl (by decide)

/-! ### C2: the clamp law -/

/-- The computeImage locals agree with the parameter store (true at the
initial read and preserved because every correction is written back). -/
def Synced (s : ClampState) : Prop :=
  s.1.binX = s.2.binX ∧ s.1.binY = s.2.binY ∧ s.1.minX = s.2.minX
  ∧ s.1.minY = s.2.minY ∧ s.1.sizeX = s.2.sizeX ∧ s.1.sizeY = s.2.sizeY

lemma clampBinX_spec (s : ClampState) :
    1 ≤ (clampBinX s).1.binX
    ∧ (clampBinX s).1.binY = s.1.binY
    ∧ (clampBinX s).1.minX = s.1.minX
    ∧ (clampBinX s).1.minY = s.1.minY
    ∧ (clampBinX s).1.sizeX = s.1.sizeX
    ∧ (clampBinX s).1.sizeY = s.1.sizeY
    ∧ (clampBinX s).2.maxSizeX = s.2.maxSizeX
    ∧ (clampBinX s).2.maxSizeY = s.2.maxSizeY
    ∧ (Synced s → Synced (clampBinX s)) := by
  unfold clampBinX Synced
  split
  · exact ⟨le_refl 1, rfl, rfl, rfl, rfl, rfl, rfl, rfl,
      fun hs => ⟨rfl, hs.2.1, hs.2.2.1, hs.2.2.2.1, hs.2.2.2.2.1,
        hs.2.2.2.2.2⟩⟩
  · rename_i h
    exact ⟨by omega, rfl, rfl, rfl, rfl, rfl, rfl, rfl, fun hs => hs⟩

lemma clampBinY_spec (s : ClampState) :
    1 ≤ (clampBinY s).1.binY
    ∧ (clampBinY s).1.binX = s.1.binX
    ∧ (clampBinY s).1.minX = s.1.minX
    ∧ (clampBinY s).1.minY = s.1.minY
    ∧ (clampBinY s).1.sizeX = s.1.sizeX
    ∧ (clampBinY s).1.sizeY = s.1.sizeY
    ∧ (clampBinY s).2.maxSizeX = s.2.maxSizeX
    ∧ (clampBinY s).2.maxSizeY = s.2.maxSizeY
    ∧ (Synced s → Synced (clampBinY s)) := by
  unfold clampBinY Synced
  split
  · exact ⟨le_refl 1, rfl, rfl, rfl, rfl, rfl, rfl, rfl,
      fun hs => ⟨hs.1, rfl, hs.2.2.1, hs.2.2.2.1, hs.2.2.2.2.1,
        hs.2.2.2.2.2⟩⟩
  · rename_i h
    exact ⟨by omega, rfl, rfl, rfl, rfl, rfl, rfl, rfl, fun hs => hs⟩

lemma clampMinXLow_spec (s : ClampState) :
    0 ≤ (clampMinXLow s).1.minX
    ∧ (clampMinXLow s).1.binX = s.1.binX
    ∧ (clampMinXLow s).1.binY = s.1.binY
    ∧ (clampMinXLow s).1.minY = s.1.minY
    ∧ (clampMinXLow s).1.sizeX = s.1.sizeX
    ∧ (clampMinXLow s).1.sizeY = s.1.sizeY
    ∧ (clampMinXLow s).2.maxSizeX = s.2.maxSizeX
    ∧ (clampMinXLow s).2.maxSizeY = s.2.maxSizeY
    ∧ (Synced s → Synced (clampMinXLow s)) := by
  unfold clampMinXLow Synced
  split
  · exact ⟨le_refl 0, rfl, rfl, rfl, rfl, rfl, rfl, rfl,
      fun hs => ⟨hs.1, hs.2.1, rfl, hs.2.2.2.1, hs.2.2.2.2.1,
        hs.2.2.2.2.2⟩⟩
  · rename_i h
    exact ⟨by omega, rfl, rfl, rfl, rfl, rfl, rfl, rfl, fun hs => hs⟩

lemma clampMinYLow_spec (s : ClampState) :
    0 ≤ (clampMinYLow s).1.minY
    ∧ (clampMinYLow s).1.binX = s.1.binX
    ∧ (clampMinYLow s).1.binY = s.1.binY
    ∧ (clampMinYLow s).1.minX = s.1.minX
    ∧ (clampMinYLow s).1.sizeX = s.1.sizeX
    ∧ (clampMinYLow s).1.sizeY = s.1.sizeY
    ∧ (clampMinYLow s).2.maxSizeX = s.2.maxSizeX
    ∧ (clampMinYLow s).2.maxSizeY = s.2.maxSizeY
    ∧ (Synced s → Synced (clampMinYLow s)) := by
  unfold clampMinYLow Synced
  split
  · exact ⟨le_refl 0, rfl, rfl, rfl, rfl, rfl, rfl, rfl,
      fun hs => ⟨hs.1, hs.2.1, hs.2.2.1, rfl, hs.2.2.2.2.1,
        hs.2.2.2.2.2⟩⟩
  · rename_i h
    exact ⟨by omega, rfl, rfl, rfl, rfl, rfl, rfl, rfl, fun hs => hs⟩

lemma clampMinXHigh_spec (s : ClampState) :
    (clampMinXHigh s).1.minX ≤ s.2.maxSizeX - 1
    ∧ (0 ≤ s.1.minX → 1 ≤ s.2.maxSizeX → 0 ≤ (clampMinXHigh s).1.minX)
    ∧ (clampMinXHigh s).1.binX = s.1.binX
    ∧ (clampMinXHigh s).1.binY = s.1.binY
    ∧ (clampMinXHigh s).1.minY = s.1.minY
    ∧ (clampMinXHigh s).1.sizeX = s.1.sizeX
    ∧ (clampMinXHigh s).1.sizeY = s.1.sizeY
    ∧ (clampMinXHigh s).2.maxSizeX = s.2.maxSizeX
    ∧ (clampMinXHigh s).2.maxSizeY = s.2.maxSizeY
    ∧ (Synced s → Synced (clampMinXHigh s)) := by
  unfold clampMinXHigh Synced
  split
  · exact ⟨le_refl _,
      fun _ hmx => by show (0 : Int) ≤ s.2.maxSizeX - 1; omega,
      rfl, rfl, rfl, rfl, rfl, rfl,
      rfl, fun hs => ⟨hs.1, hs.2.1, rfl, hs.2.2.2.1, hs.2.2.2.2.1,
        hs.2.2.2.2.2⟩⟩
  · rename_i h
    exact ⟨by omega, fun h0 _ => h0, rfl, rfl, rfl, rfl, rfl, rfl, rfl,
      fun hs => hs⟩

lemma clampMinYHigh_spec (s : ClampState) :
    (clampMinYHigh s).1.minY ≤ s.2.maxSizeY - 1
    ∧ (0 ≤ s.1.minY → 1 ≤ s.2.maxSizeY → 0 ≤ (clampMinYHigh s).1.minY)
    ∧ (clampMinYHigh s).1.binX = s.1.binX
    ∧ (clampMinYHigh s).1.binY = s.1.binY
    ∧ (clampMinYHigh s).1.minX = s.1.minX
    ∧ (clampMinYHigh s).1.sizeX = s.1.sizeX
    ∧ (clampMinYHigh s).1.sizeY = s.1.sizeY
    ∧ (clampMinYHigh s).2.maxSizeX = s.2.maxSizeX
    ∧ (clampMinYHigh s).2.maxSizeY = s.2.maxSizeY
    ∧ (Synced s → Synced (clampMinYHigh s)) := by
  unfold clampMinYHigh Synced
  split
  · exact ⟨le_refl _,
      fun _ hmy => by show (0 : Int) ≤ s.2.maxSizeY - 1; omega,
      rfl, rfl, rfl, rfl, rfl, rfl,
      rfl, fun hs => ⟨hs.1, hs.2.1, hs.2.2.1, rfl, hs.2.2.2.2.1,
        hs.2.2.2.2.2⟩⟩
  · rename_i h
    exact ⟨by omega, fun h0 _ => h0, rfl, rfl, rfl, rfl, rfl, rfl, rfl,
      fun hs => hs⟩

lemma clampSizeX_spec (s : ClampState) :
    (clampSizeX s).1.minX + (clampSizeX s).1.sizeX ≤ s.2.maxSizeX
    ∧ (clampSizeX s).1.binX = s.1.binX
    ∧ (clampSizeX s).1.binY = s.1.binY
    ∧ (clampSizeX s).1.minX = s.1.minX
    ∧ (clampSizeX s).1.minY = s.1.minY
    ∧ (clampSizeX s).1.sizeY = s.1.sizeY
    ∧ (clampSizeX s).2.maxSizeX = s.2.maxSizeX
    ∧ (clampSizeX s).2.maxSizeY = s.2.maxSizeY
    ∧ (Synced s → Synced (clampSizeX s)) := by
  unfold clampSizeX Synced
  split
  · rename_i h
    have h1 : s.1.minX + (s.2.maxSizeX - s.1.minX) ≤ s.2.maxSizeX := by
      omega
    exact ⟨h1, rfl, rfl, rfl, rfl, rfl, rfl, rfl,
      fun hs => ⟨hs.1, hs.2.1, hs.2.2.1, hs.2.2.2.1, rfl,
        hs.2.2.2.2.2⟩⟩
  · rename_i h
    exact ⟨by omega, rfl, rfl, rfl, rfl, rfl, rfl, rfl, fun hs => hs⟩

lemma clampSizeY_spec (s : ClampState) :
    (clampSizeY s).1.minY + (clampSizeY s).1.sizeY ≤ s.2.maxSizeY
    ∧ (clampSizeY s).1.binX = s.1.binX
    ∧ (clampSizeY s).1.binY = s.1.binY
    ∧ (clampSizeY s).1.minX = s.1.minX
    ∧ (clampSizeY s).1.minY = s.1.minY
    ∧ (clampSizeY s).1.sizeX = s.1.sizeX
    ∧ (clampSizeY s).2.maxSizeX = s.2.maxSizeX
    ∧ (clampSizeY s).2.maxSizeY = s.2.maxSizeY
    ∧ (Synced s → Synced (clampSizeY s)) := by
  unfold clampSizeY Synced
  split
  · rename_i h
    have h1 : s.1.minY + (s.2.maxSizeY - s.1.minY) ≤ s.2.maxSizeY := by
      omega
    exact ⟨h1, rfl, rfl, rfl, rfl, rfl, rfl, rfl,
      fun hs => ⟨hs.1, hs.2.1, hs.2.2.1, hs.2.2.2.1, hs.2.2.2.2.1,
        rfl⟩⟩
  · rename_i h
    exact ⟨by omega, rfl, rfl, rfl, rfl, rfl, rfl, rfl, fun hs => hs⟩

lemma clampChain_invariants (s0 : ClampState) (hsync : Synced s0)
    (hx : 1 ≤ s0.2.maxSizeX) (hy : 1 ≤ s0.2.maxSizeY) :
    1 ≤ (clampSizeY (clampSizeX (clampMinYHigh (clampMinXHigh
        (clampMinYLow (clampMinXLow (clampBinY (clampBinX s0)))))))).2.binX
    ∧ 1 ≤ (clampSizeY (clampSizeX (clampMinYHigh (clampMinXHigh
        (clampMinYLow (clampMinXLow (clampBinY (clampBinX s0)))))))).2.binY
    ∧ 0 ≤ (clampSizeY (clampSizeX (clampMinYHigh (clampMinXHigh
        (clampMinYLow (clampMinXLow (clampBinY (clampBinX s0)))))))).2.minX
    ∧ (clampSizeY (clampSizeX (clampMinYHigh (clampMinXHigh
        (clampMinYLow (clampMinXLow (clampBinY (clampBinX s0)))))))).2.minX
      ≤ (clampSizeY (clampSizeX (clampMinYHigh (clampMinXHigh
        (clampMinYLow (clampMinXLow (clampBinY
          (clampBinX s0)))))))).2.maxSizeX - 1
    ∧ (clampSizeY (clampSizeX (clampMinYHigh (clampMinXHigh
        (clampMinYLow (clampMinXLow (clampBinY (clampBinX s0)))))))).2.minX
      + (clampSizeY (clampSizeX (clampMinYHigh (clampMinXHigh
        (clampMinYLow (clampMinXLow (clampBinY (clampBinX s0)))))))).2.sizeX
      ≤ (clampSizeY (clampSizeX (clampMinYHigh (clampMinXHigh
        (clampMinYLow (clampMinXLow (clampBinY
          (clampBinX s0)))))))).2.maxSizeX
    ∧ 0 ≤ (clampSizeY (clampSizeX (clampMinYHigh (clampMinXHigh
        (clampMinYLow (clampMinXLow (clampBinY (clampBinX s0)))))))).2.minY
    ∧ (clampSizeY (clampSizeX (clampMinYHigh (clampMinXHigh
        (clampMinYLow (clampMinXLow (clampBinY (clampBinX s0)))))))).2.minY
      ≤ (clampSizeY (clampSizeX (clampMinYHigh (clampMinXHigh
        (clampMinYLow (clampMinXLow (clampBinY
          (clampBinX s0)))))))).2.maxSizeY - 1
    ∧ (clampSizeY (clampSizeX (clampMinYHigh (clampMinXHigh
        (clampMinYLow (clampMinXLow (clampBinY (clampBinX s0)))))))).2.minY
      + (clampSizeY (clampSizeX (clampMinYHigh (clampMinXHigh
        (clampMinYLow (clampMinXLow (clampBinY (clampBinX s0)))))))).2.sizeY
      ≤ (clampSizeY (clampSizeX (clampMinYHigh (clampMinXHigh
        (clampMinYLow (clampMinXLow (clampBinY
          (clampBinX s0)))))))).2.maxSizeY
    ∧ (clampSizeY (clampSizeX (clampMinYHigh (clampMinXHigh
        (clampMinYLow (clampMinXLow (clampBinY
          (clampBinX s0)))))))).2.maxSizeX = s0.2.maxSizeX
    ∧ (clampSizeY (clampSizeX (clampMinYHigh (clampMinXHigh
        (clampMinYLow (clampMinXLow (clampBinY
          (clampBinX s0)))))))).2.maxSizeY = s0.2.maxSizeY
    ∧ (clampSizeY (clampSizeX (clampMinYHigh (clampMinXHigh
        (clampMinYLow (clampMinXLow (clampBinY (clampBinX s0)))))))).1.binX
      = (clampSizeY (clampSizeX (clampMinYHigh (clampMinXHigh
        (clampMinYLow (clampMinXLow (clampBinY (clampBinX s0)))))))).2.binX
    ∧ (clampSizeY (clampSizeX (clampMinYHigh (clampMinXHigh
        (clampMinYLow (clampMinXLow (clampBinY (clampBinX s0)))))))).1.binY
      = (clampSizeY (clampSizeX (clampMinYHigh (clampMinXHigh
        (clampMinYLow (clampMinXLow (clampBinY (clampBinX s0)))))))).2.binY
    ∧ (clampSizeY (clampSizeX (clampMinYHigh (clampMinXHigh
        (clampMinYLow (clampMinXLow (clampBinY (clampBinX s0)))))))).1.minX
      = (clampSizeY (clampSizeX (clampMinYHigh (clampMinXHigh
        (clampMinYLow (clampMinXLow (clampBinY (clampBinX s0)))))))).2.minX
    ∧ (clampSizeY (clampSizeX (clampMinYHigh (clampMinXHigh
        (clampMinYLow (clampMinXLow (clampBinY (clampBinX s0)))))))).1.minY
      = (clampSizeY (clampSizeX (clampMinYHigh (clampMinXHigh
        (clampMinYLow (clampMinXLow (clampBinY (clampBinX s0)))))))).2.minY
    ∧ (clampSizeY (clampSizeX (clampMinYHigh (clampMinXHigh
        (clampMinYLow (clampMinXLow (clampBinY (clampBinX s0)))))))).1.sizeX
      = (clampSizeY (clampSizeX (clampMinYHigh (clampMinXHigh
        (clampMinYLow (clampMinXLow (clampBinY (clampBinX s0)))))))).2.sizeX
    ∧ (clampSizeY (clampSizeX (clampMinYHigh (clampMinXHigh
        (clampMinYLow (clampMinXLow (clampBinY (clampBinX s0)))))))).1.sizeY
      = (clampSizeY (clampSizeX (clampMinYHigh (clampMinXHigh
        (clampMinYLow (clampMinXLow (clampBinY
          (clampBinX s0)))))))).2.sizeY := by
  set s1 := clampBinX s0 with hs1
  set s2 := clampBinY s1 with hs2
  set s3 := clampMinXLow s2 with hs3
  set s4 := clampMinYLow s3 with hs4
  set s5 := clampMinXHigh s4 with hs5
  set s6 := clampMinYHigh s5 with hs6
  set s7 := clampSizeX s6 with hs7
  set s8 := clampSizeY s7 with hs8
  obtain ⟨a1, a2, a3, a4, a5, a6, a7, a8, a9⟩ := clampBinX_spec s0
  obtain ⟨b1, b2, b3, b4, b5, b6, b7, b8, b9⟩ := clampBinY_spec s1
  obtain ⟨c1, c2, c3, c4, c5, c6, c7, c8, c9⟩ := clampMinXLow_spec s2
  obtain ⟨d1, d2, d3, d4, d5, d6, d7, d8, d9⟩ := clampMinYLow_spec s3
  obtain ⟨e1, e2, e3, e4, e5, e6, e7, e8, e9, e10⟩ := clampMinXHigh_spec s4
  obtain ⟨f1, f2, f3, f4, f5, f6, f7, f8, f9, f10⟩ := clampMinYHigh_spec s5
  obtain ⟨g1, g2, g3, g4, g5, g6, g7, g8, g9⟩ := clampSizeX_spec s6
  obtain ⟨k1, k2, k3, k4, k5, k6, k7, k8, k9⟩ := clampSizeY_spec s7
  rw [← hs1, ← hs2, ← hs3, ← hs4, ← hs5, ← hs6, ← hs7, ← hs8] at *
  have e2h := e2 (by omega) (by omega)
  have f2h := f2 (by omega) (by omega)
  obtain ⟨q1, q2, q3, q4, q5, q6⟩ :=
    k9 (g9 (f10 (e10 (d9 (c9 (b9 (a9 hsync)))))))
  omega

/-- C2: for any out-of-range geometry parameters, one clamping pass (the
eight source-order corrections, each written back to the parameter
store) establishes the geometry invariants on the stored values, and the
locals the frame build goes on to use agree with the stored (readable)
values.  The maximum sizes are fixed at construction and positive. -/
theorem clampGeometry_invariants (p : Params)
    (hx : 1 ≤ p.maxSizeX) (hy : 1 ≤ p.maxSizeY) :
    1 ≤ (clampGeometry p).2.binX ∧ 1 ≤ (clampGeometry p).2.binY
    ∧ 0 ≤ (clampGeometry p).2.minX
    ∧ (clampGeometry p).2.minX ≤ (clampGeometry p).2.maxSizeX - 1
    ∧ (clampGeometry p).2.minX + (clampGeometry p).2.sizeX
        ≤ (clampGeometry p).2.maxSizeX
    ∧ 0 ≤ (clampGeometry p).2.minY
    ∧ (clampGeometry p).2.minY ≤ (clampGeometry p).2.maxSizeY - 1
    ∧ (clampGeometry p).2.minY + (clampGeometry p).2.sizeY
        ≤ (clampGeometry p).2.maxSizeY
    ∧ (clampGeometry p).2.maxSizeX = p.maxSizeX
    ∧ (clampGeometry p).2.maxSizeY = p.maxSizeY
    ∧ (clampGeometry p).1.binX = (clampGeometry p).2.binX
    ∧ (clampGeometry p).1.binY = (clampGeometry p).2.binY
    ∧ (clampGeometry p).1.minX = (clampGeometry p).2.minX
    ∧ (clampGeometry p).1.minY = (clampGeometry p).2.minY
    ∧ (clampGeometry p).1.sizeX = (clampGeometry p).2.sizeX
    ∧ (clampGeometry p).1.sizeY = (clampGeometry p).2.sizeY := by
  simp only [clampGeometry]
  exact clampChain_invariants
    (⟨p.binX, p.binY, p.minX, p.minY, p.sizeX, p.sizeY⟩, p)
    ⟨rfl, rfl, rfl, rfl, rfl, rfl⟩ hx hy

/-- A geometry with every parameter out of range, for the C2 witness. -/
def outOfRangeParams : Params :=
  { (baseDet 0 0).params with
    maxSizeX := 10, maxSizeY := 8, binX := 0, binY := -2, minX := -5,
    minY := 12, sizeX := 99, sizeY := 3 }

/-- Witness for C2 at a concrete fully out-of-range geometry. -/
theorem clampGeometry_invariants_witness :
    1 ≤ (clampGeometry outOfRangeParams).2.binX
    ∧ 1 ≤ (clampGeometry outOfRangeParams).2.binY := by
  have h := clampGeometry_invariants outOfRangeParams
    (by decide) (by decide)
  exact ⟨h.1, h.2.1⟩

/-! ### Store fields untouched by the clamps -/

lemma clampBinX_misc (s : ClampState) :
    (clampBinX s).2.dataType = s.2.dataType
    ∧ (clampBinX s).2.acquire = s.2.acquire := by
  unfold clampBinX; split <;> exact ⟨rfl, rfl⟩

lemma clampBinY_misc (s : ClampState) :
    (clampBinY s).2.dataType = s.2.dataType
    ∧ (clampBinY s).2.acquire = s.2.acquire := by
  unfold clampBinY; split <;> exact ⟨rfl, rfl⟩

lemma clampMinXLow_misc (s : ClampState) :
    (clampMinXLow s).2.dataType = s.2.dataType
    ∧ (clampMinXLow s).2.acquire = s.2.acquire := by
  unfold clampMinXLow; split <;> exact ⟨rfl, rfl⟩

lemma clampMinYLow_misc (s : ClampState) :
    (clampMinYLow s).2.dataType = s.2.dataType
    ∧ (clampMinYLow s).2.acquire = s.2.acquire := by
  unfold clampMinYLow; split <;> exact ⟨rfl, rfl⟩

lemma clampMinXHigh_misc (s : ClampState) :
    (clampMinXHigh s).2.dataType = s.2.dataType
    ∧ (clampMinXHigh s).2.acquire = s.2.acquire := by
  unfold clampMinXHigh; split <;> exact ⟨rfl, rfl⟩

lemma clampMinYHigh_misc (s : ClampState) :
    (clampMinYHigh s).2.dataType = s.2.dataType
    ∧ (clampMinYHigh s).2.acquire = s.2.acquire := by
  unfold clampMinYHigh; split <;> exact ⟨rfl, rfl⟩

lemma clampSizeX_misc (s : ClampState) :
    (clampSizeX s).2.dataType = s.2.dataType
    ∧ (clampSizeX s).2.acquire = s.2.acquire := by
  unfold clampSizeX; split <;> exact ⟨rfl, rfl⟩

lemma clampSizeY_misc (s : ClampState) :
    (clampSizeY s).2.dataType = s.2.dataType
    ∧ (clampSizeY s).2.acquire = s.2.acquire := by
  unfold clampSizeY; split <;> exact ⟨rfl, rfl⟩

lemma clampGeometry_dataType (p : Params) :
    (clampGeometry p).2.dataType = p.dataType := by
  unfold clampGeometry
  rw [(clampSizeY_misc _).1, (clampSizeX_misc _).1, (clampMinYHigh_misc _).1,
    (clampMinXHigh_misc _).1, (clampMinYLow_misc _).1, (clampMinXLow_misc _).1,
    (clampBinY_misc _).1, (clampBinX_misc _).1]

lemma clampGeometry_acquire (p : Params) :
    (clampGeometry p).2.acquire = p.acquire := by
  unfold clampGeometry
  rw [(clampSizeY_misc _).2, (clampSizeX_misc _).2, (clampMinYHigh_misc _).2,
    (clampMinXHigh_misc _).2, (clampMinYLow_misc _).2, (clampMinXLow_misc _).2,
    (clampBinY_misc _).2, (clampBinX_misc _).2]

/-! ### C10: a failed grow leaves a satisfied no-grow state behind -/

/-- C10: after a failed grow, dataSize already holds the requested byte
count while the data pointer is null, so an immediately following
allocateBuffer call whose required byte count is no larger takes the
no-grow branch and returns success without touching the array, leaving
the null pointer in place. -/
theorem alloc_failure_then_nogrow_success (r : NDRawArray)
    (fresh2 : Option (List ℚ)) (dt2 : Int)
    (hgrow : r.dataSize < requiredBytes r)
    (hle : requiredBytes { (allocateBuffer none r).2 with dataType := dt2 }
        ≤ requiredBytes r) :
    (allocateBuffer none r).1 = .error
    ∧ (allocateBuffer none r).2.pData = none
    ∧ (allocateBuffer none r).2.dataSize = requiredBytes r
    ∧ allocateBuffer fresh2
        { (allocateBuffer none r).2 with dataType := dt2 }
      = (.success, { (allocateBuffer none r).2 with dataType := dt2 }) := by
  have h1 : allocateBuffer none r
      = (.error, { r with pData := none, dataSize := requiredBytes r }) := by
    unfold allocateBuffer
    rw [if_pos (by omega)]
    rfl
  rw [h1] at hle ⊢
  refine ⟨rfl, rfl, rfl, ?_⟩
  unfold allocateBuffer
  rw [if_neg]
  simp only [requiredBytes] at hle ⊢
  omega

/-- A one-byte raw array whose required byte count is four, for the C10
witness. -/
def starvedRaw : NDRawArray :=
  { nx := 2, ny := 2, pData := some [1, 2, 3, 4], dataSize := 0,
    dataType := 1 }

/-- Witness for C10: the failed grow on starvedRaw followed by a no-grow
call for the one-byte-per-sample representation 0. -/
theorem alloc_failure_then_nogrow_success_witness :
    (allocateBuffer none starvedRaw).1 = .error
    ∧ (allocateBuffer none starvedRaw).2.pData = none
    ∧ (allocateBuffer none starvedRaw).2.dataSize = requiredBytes starvedRaw
    ∧ allocateBuffer (some [9])
        { (allocateBuffer none starvedRaw).2 with dataType := 0 }
      = (.success, { (allocateBuffer none starvedRaw).2 with dataType := 0 }) := by
  exact alloc_failure_then_nogrow_success starvedRaw (some [9]) 0
    (by with_unfolding_all decide) (by with_unfolding_all decide)

/-! ### C5: allocation failure aborts the frame build -/

/-- The error path of computeImage under a failed malloc: the build
aborts after the clamp writes and the failed grow. -/
lemma computeImage_none_error (d : SimDet)
    (hgrow : d.raw.dataSize
      < requiredBytes { d.raw with dataType := d.params.dataType }) :
    computeImage none d
      = (.error,
         { d with params := (clampGeometry d.params).2,
                  raw := { d.raw with
                           dataType := (clampGeometry d.params).2.dataType,
                           pData := none,
                           dataSize := requiredBytes
                             { d.raw with
                               dataType := d.params.dataType } } }) := by
  have hreq : requiredBytes
      { d.raw with dataType := (clampGeometry d.params).2.dataType }
      = requiredBytes { d.raw with dataType := d.params.dataType } := by
    rw [clampGeometry_dataType]
  have halloc : allocateBuffer none
      { d.raw with dataType := (clampGeometry d.params).2.dataType }
      = (.error,
         { d.raw with dataType := (clampGeometry d.params).2.dataType,
                      pData := none,
                      dataSize := requiredBytes
                        { d.raw with dataType := d.params.dataType } }) := by
    unfold allocateBuffer
    rw [if_pos (by rw [hreq]; exact hgrow), hreq]
    rfl
  simp only [computeImage]
  rw [halloc]
  rfl

/-- C5 (amended): if growing the raw buffer fails, the frame build for
that iteration aborts with an allocation error, no frame is delivered
and the current output frame is unchanged; the raw buffer, however, is
not untouched: its old block has been freed (null data pointer), its
dataSize already holds the requested byte count and its dataType the
requested representation, and the geometry clamp writes have already
happened. -/
theorem alloc_failure_aborts_build (d : SimDet) (n : Nat)
    (w1 w2 : WaitResult)
    (hgrow : d.raw.dataSize
      < requiredBytes { d.raw with dataType := d.params.dataType }) :
    (computeImage none (exposingState d)).1 = .error
    ∧ (computeImage none (exposingState d)).2.outFrame = d.outFrame
    ∧ (computeImage none (exposingState d)).2.raw.pData = none
    ∧ (computeImage none (exposingState d)).2.raw.dataSize
        = requiredBytes { d.raw with dataType := d.params.dataType }
    ∧ (simTaskIteration w1 w2 none ⟨d, n⟩).delivered = n
    ∧ (simTaskIteration w1 w2 none ⟨d, n⟩).det.outFrame = d.outFrame := by
  have hgrow2 : (exposingState d).raw.dataSize < requiredBytes
      { (exposingState d).raw with
        dataType := (exposingState d).params.dataType } := hgrow
  have hci := computeImage_none_error (exposingState d) hgrow2
  have hiter : simTaskIteration w1 w2 none ⟨d, n⟩
      = { det := (computeImage none (exposingState d)).2, delivered := n } := by
    simp only [simTaskIteration]
    rw [hci]
    rfl
  rw [hiter, hci]
  exact ⟨rfl, rfl, rfl, rfl, rfl, rfl⟩

/-- A driver state whose raw buffer cannot hold one uint8 sample, for
the C5 witness and counterexample. -/
def starvedDet : SimDet :=
  { baseDet 0 0 with
    raw := { nx := 1, ny := 1, pData := some [5], dataSize := 0,
             dataType := 1 } }

/-- Witness for C5 (amended) at the concrete starved state. -/
theorem alloc_failure_aborts_build_witness :
    (computeImage none (exposingState starvedDet)).1 = .error
    ∧ (computeImage none (exposingState starvedDet)).2.outFrame
        = starvedDet.outFrame
    ∧ (computeImage none (exposingState starvedDet)).2.raw.pData = none
    ∧ (computeImage none (exposingState starvedDet)).2.raw.dataSize
        = requiredBytes
            { starvedDet.raw with dataType := starvedDet.params.dataType }
    ∧ (simTaskIteration .stopped .stopped none ⟨starvedDet, 7⟩).delivered = 7
    ∧ (simTaskIteration .stopped .stopped none ⟨starvedDet, 7⟩).det.outFrame
        = starvedDet.outFrame := by
  exact alloc_failure_aborts_build starvedDet 7 .stopped .stopped
    (by with_unfolding_all decide)

/-- Counterexample for C5 as stated: on the starved state the failed
build does modify the raw buffer (the old block is freed and the byte
count updated), so the raw buffer is not unchanged. -/
theorem alloc_failure_modifies_raw_cex :
    (computeImage none (exposingState starvedDet)).2.raw
      ≠ starvedDet.raw := by
  with_unfolding_all decide

/-! ### Success-path helpers for the production loop -/

/-- With a successful malloc the grow can never fail, so allocateBuffer
reports success whatever the state. -/
lemma allocateBuffer_some_fst (l : List ℚ) (r : NDRawArray) :
    (allocateBuffer (some l) r).1 = .success := by
  simp only [allocateBuffer, Option.isSome_some, if_true]
  split <;> rfl

/-- computeImage never reports an error when malloc succeeds: the final
status is rebuilt as success after the convert call. -/
lemma computeImage_some_fst (l : List ℚ) (d : SimDet) :
    (computeImage (some l) d).1 = .success := by
  simp only [computeImage, allocateBuffer_some_fst]
  rfl

/-- A successful frame build delivers exactly one frame downstream. -/
lemma simTaskIteration_delivered_of_success (w1 w2 : WaitResult)
    (fresh : Option (List ℚ)) (ts : TaskState)
    (h : (computeImage fresh (exposingState ts.det)).1 = .success) :
    (simTaskIteration w1 w2 fresh ts).delivered = ts.delivered + 1 := by
  simp only [simTaskIteration]
  rw [if_neg (by simp [h])]

/-! ### C6: unsupported representation skips synthesis only -/

/-- With an unsupported representation the required byte count is zero,
so the grow branch is never taken and allocateBuffer returns the array
as is. -/
lemma allocateBuffer_unsupported (fresh : Option (List ℚ))
    (r : NDRawArray) (hdt : decodeDataType r.dataType = none) :
    allocateBuffer fresh r = (.success, r) := by
  unfold allocateBuffer
  rw [if_neg]
  have hz : requiredBytes r = 0 := by
    simp [requiredBytes, bytesOf, hdt]
  omega

/-- C6: for a representation code outside the eight supported kinds, the
synthesis switch is a no-op (the raw samples keep their previous
content), while the build still succeeds, conversion and publication
still produce an output frame carrying the stale samples, and the
delivery for that frame still happens. -/
theorem unsupported_dtype_stale_delivery (fresh : Option (List ℚ))
    (d : SimDet) (n : Nat) (w1 w2 : WaitResult)
    (hdt : decodeDataType d.params.dataType = none) :
    (computeImage fresh (exposingState d)).1 = .success
    ∧ (computeImage fresh (exposingState d)).2.raw.pData = d.raw.pData
    ∧ Option.map NDFrame.data
        ((computeImage fresh (exposingState d)).2.outFrame)
      = some d.raw.pData
    ∧ (simTaskIteration w1 w2 fresh ⟨d, n⟩).delivered = n + 1 := by
  have hdtc : (clampGeometry (exposingState d).params).2.dataType
      = d.params.dataType := clampGeometry_dataType _
  have hra : decodeDataType
      ({ (exposingState d).raw with
         dataType := (clampGeometry (exposingState d).params).2.dataType
       } : NDRawArray).dataType = none := by
    show decodeDataType (clampGeometry (exposingState d).params).2.dataType
      = none
    rw [hdtc]
    exact hdt
  have halloc := allocateBuffer_unsupported fresh
    { (exposingState d).raw with
      dataType := (clampGeometry (exposingState d).params).2.dataType } hra
  have hsucc : (computeImage fresh (exposingState d)).1 = .success := by
    simp only [computeImage, halloc]
    rfl
  refine ⟨hsucc, ?_, ?_,
    simTaskIteration_delivered_of_success w1 w2 fresh ⟨d, n⟩ hsucc⟩
  · simp only [computeImage, halloc]
    rw [if_neg (by exact fun hc => nomatch hc)]
    simp only [hdtc, hdt]
    rfl
  · simp only [computeImage, halloc]
    rw [if_neg (by exact fun hc => nomatch hc)]
    simp only [hdtc, hdt]
    rfl

/-- A driver state carrying the unsupported representation code 99, for
the C6 witness. -/
def badTypeDet : SimDet :=
  { baseDet 0 0 with
    params := { (baseDet 0 0).params with dataType := 99 },
    raw := { nx := 1, ny := 1, pData := some [5], dataSize := 8,
             dataType := 99 } }

/-- Witness for C6 at the concrete representation code 99. -/
theorem unsupported_dtype_stale_delivery_witness :
    (computeImage none (exposingState badTypeDet)).1 = .success
    ∧ (computeImage none (exposingState badTypeDet)).2.raw.pData
        = badTypeDet.raw.pData
    ∧ Option.map NDFrame.data
        ((computeImage none (exposingState badTypeDet)).2.outFrame)
      = some badTypeDet.raw.pData
    ∧ (simTaskIteration .timedOut .stopped none ⟨badTypeDet, 4⟩).delivered
        = 4 + 1 := by
  exact unsupported_dtype_stale_delivery none badTypeDet 4 .timedOut .stopped
    (by with_unfolding_all decide)

/-! ### C7: a stop signal shortens only the wait -/

/-- C7: the source discards the return status of both timed waits, so an
iteration whose exposure or readout wait was cut short by a stop signal
is identical to one whose waits timed out: the frame is still built and
delivered (when the build succeeds), and the loop then returns to the
acquire-flag check at the top. -/
theorem stop_signal_keeps_frame (w1 w2 : WaitResult)
    (fresh : Option (List ℚ)) (ts : TaskState) (fuel : Nat)
    (h : (computeImage fresh (exposingState ts.det)).1 = .success) :
    simTaskIteration w1 w2 fresh ts
      = simTaskIteration .timedOut .timedOut fresh ts
    ∧ (simTaskIteration w1 w2 fresh ts).delivered = ts.delivered + 1
    ∧ simTaskRun (fuel + 1) ts
      = (if ts.det.params.acquire ≠ 0 then
          simTaskRun fuel (simTaskStep ts)
        else ts) := by
  exact ⟨rfl, simTaskIteration_delivered_of_success w1 w2 fresh ts h, rfl⟩

/-- Witness for C7: both waits stopped early on the base state; the
frame is still delivered. -/
theorem stop_signal_keeps_frame_witness :
    simTaskIteration .stopped .stopped (some []) ⟨baseDet 0 0, 0⟩
      = simTaskIteration .timedOut .timedOut (some []) ⟨baseDet 0 0, 0⟩
    ∧ (simTaskIteration .stopped .stopped (some []) ⟨baseDet 0 0, 0⟩).delivered
        = 0 + 1
    ∧ simTaskRun (2 + 1) ⟨baseDet 0 0, 0⟩
      = (if (⟨baseDet 0 0, 0⟩ : TaskState).det.params.acquire ≠ 0 then
          simTaskRun 2 (simTaskStep ⟨baseDet 0 0, 0⟩)
        else ⟨baseDet 0 0, 0⟩) := by
  exact stop_signal_keeps_frame .stopped .stopped (some [])
    ⟨baseDet 0 0, 0⟩ 2 (computeImage_some_fst [] _)

/-! ### C8: geometry and gain writes store, set the reset flag, then
notify -/

/-- C8: every external integer write to binX, binY, minX, minY, sizeX,
sizeY or the representation, and every double write to exposure time,
gain, gainX or gainY, first stores the written value in the parameter
store, then sets the reset flag, and only then notifies observers (the
trace lists the observable actions in program order), and the stored
value is readable back. -/
theorem write_sets_reset_after_store :
    (∀ f ∈ geomFuncs, ∀ (v : Int) (d : SimDet),
      (writeInt32 f v d).2
        = [Event.storeInt f v, Event.setResetFlag, Event.notifyObservers]
      ∧ getIntParam f (writeInt32 f v d).1.params = v
      ∧ (writeInt32 f v d).1.params.resetImage = 1)
    ∧ (∀ g ∈ gainFuncs, ∀ (v : ℚ) (d : SimDet),
      (writeFloat64 g v d).2
        = [Event.storeDouble g v, Event.setResetFlag,
           Event.notifyObservers]
      ∧ getDblParam g (writeFloat64 g v d).1.params = v
      ∧ (writeFloat64 g v d).1.params.resetImage = 1) := by
  constructor
  · intro f hf v d
    fin_cases hf <;> exact ⟨rfl, rfl, rfl⟩
  · intro g hg v d
    fin_cases hg <;> exact ⟨rfl, rfl, rfl⟩

/-- Witness for C8: a sizeX write of -3 and a gain write of 5/2 on the
base state. -/
theorem write_sets_reset_after_store_witness :
    ((writeInt32 .adSizeX (-3) (baseDet 0 0)).2
      = [Event.storeInt .adSizeX (-3), Event.setResetFlag,
         Event.notifyObservers]
    ∧ getIntParam .adSizeX (writeInt32 .adSizeX (-3) (baseDet 0 0)).1.params
        = -3
    ∧ (writeInt32 .adSizeX (-3) (baseDet 0 0)).1.params.resetImage = 1)
    ∧ ((writeFloat64 .adGain (5/2) (baseDet 0 0)).2
      = [Event.storeDouble .adGain (5/2), Event.setResetFlag,
         Event.notifyObservers]
    ∧ getDblParam .adGain (writeFloat64 .adGain (5/2) (baseDet 0 0)).1.params
        = 5/2
    ∧ (writeFloat64 .adGain (5/2) (baseDet 0 0)).1.params.resetImage = 1) := by
  exact ⟨write_sets_reset_after_store.1 .adSizeX (by decide) (-3)
      (baseDet 0 0),
    write_sets_reset_after_store.2 .adGain (by decide) (5/2)
      (baseDet 0 0)⟩

/-! ### C3 and C9: countdown accounting of the production loop -/

lemma computeImage_snd_ir (fresh : Option (List ℚ)) (d : SimDet) :
    (computeImage fresh d).2.imagesRemaining = d.imagesRemaining := by
  simp only [computeImage]
  split <;> rfl

lemma computeImage_snd_acquire (fresh : Option (List ℚ)) (d : SimDet) :
    (computeImage fresh d).2.params.acquire = d.params.acquire := by
  simp only [computeImage]
  split
  · show (clampGeometry d.params).2.acquire = d.params.acquire
    exact clampGeometry_acquire _
  · show (clampGeometry d.params).2.acquire = d.params.acquire
    exact clampGeometry_acquire _

/-- The counter bookkeeping of one successful loop iteration: one frame
delivered, a positive imagesRemaining decremented, and the acquire flag
cleared exactly when the counter has reached zero. -/
lemma simTaskStep_counters (ts : TaskState) :
    (simTaskStep ts).delivered = ts.delivered + 1
    ∧ (simTaskStep ts).det.imagesRemaining
        = stepIR ts.det.imagesRemaining
    ∧ (simTaskStep ts).det.params.acquire
        = (if stepIR ts.det.imagesRemaining = 0 then 0
           else ts.det.params.acquire) := by
  have hs := computeImage_some_fst [] (exposingState ts.det)
  refine ⟨simTaskIteration_delivered_of_success _ _ _ _ hs, ?_, ?_⟩
  · simp only [simTaskStep, simTaskIteration]
    rw [if_neg (by simp [hs])]
    simp only [computeImage_snd_ir]
    rfl
  · simp only [simTaskStep, simTaskIteration]
    rw [if_neg (by simp [hs])]
    simp only [apply_ite Params.acquire, computeImage_snd_ir,
      computeImage_snd_acquire]
    rfl

/-- With the acquire flag clear the loop stays blocked at the idle
wait. -/
lemma simTaskRun_stop (fuel : Nat) (ts : TaskState)
    (h : ts.det.params.acquire = 0) : simTaskRun fuel ts = ts := by
  cases fuel with
  | zero => rfl
  | succ n => simp [simTaskRun, h]

/-- A negative imagesRemaining is never decremented and never stops the
loop: one frame is delivered per fuel unit foreverringly. -/
lemma simTaskRun_unbounded : ∀ (fuel : Nat) (ts : TaskState),
    ts.det.params.acquire ≠ 0 → ts.det.imagesRemaining < 0 →
    (simTaskRun fuel ts).delivered = ts.delivered + fuel
    ∧ (simTaskRun fuel ts).det.params.acquire = ts.det.params.acquire
    ∧ (simTaskRun fuel ts).det.imagesRemaining
        = ts.det.imagesRemaining := by
  intro fuel
  induction fuel with
  | zero => exact fun ts _ _ => ⟨rfl, rfl, rfl⟩
  | succ n ih =>
      intro ts h hir
      obtain ⟨i1, i2, i3⟩ := simTaskStep_counters ts
      have hstep : stepIR ts.det.imagesRemaining = ts.det.imagesRemaining := by
        unfold stepIR
        rw [if_neg (by omega)]
      have hacq : (simTaskStep ts).det.params.acquire
          = ts.det.params.acquire := by
        rw [i3, hstep, if_neg (by omega)]
      have hir2 : (simTaskStep ts).det.imagesRemaining
          = ts.det.imagesRemaining := by
        rw [i2, hstep]
      have hrun : simTaskRun (n + 1) ts = simTaskRun n (simTaskStep ts) := by
        simp only [simTaskRun]
        rw [if_pos h]
      obtain ⟨r1, r2, r3⟩ := ih (simTaskStep ts)
        (by rw [hacq]; exact h) (by rw [hir2]; exact hir)
      rw [hrun, r1, r2, r3, i1, hacq, hir2]
      exact ⟨by omega, rfl, rfl⟩

/-- Starting with imagesRemaining zero, the zero test fires right after
the first delivered frame: exactly one frame, then the acquire flag is
cleared. -/
lemma simTaskRun_zero_ir (ts : TaskState)
    (h : ts.det.params.acquire ≠ 0) (hir : ts.det.imagesRemaining = 0) :
    ∀ fuel : Nat, 1 ≤ fuel →
      (simTaskRun fuel ts).delivered = ts.delivered + 1
      ∧ (simTaskRun fuel ts).det.params.acquire = 0 := by
  intro fuel hf
  obtain ⟨i1, i2, i3⟩ := simTaskStep_counters ts
  have hstep : stepIR ts.det.imagesRemaining = 0 := by
    unfold stepIR
    rw [hir]
    norm_num
  have hacq : (simTaskStep ts).det.params.acquire = 0 := by
    rw [i3, hstep, if_pos rfl]
  cases fuel with
  | zero => omega
  | succ n =>
      have hrun : simTaskRun (n + 1) ts = simTaskRun n (simTaskStep ts) := by
        simp only [simTaskRun]
        rw [if_pos h]
      rw [hrun, simTaskRun_stop n _ hacq, i1, hacq]
      exact ⟨rfl, rfl⟩

/-- A positive imagesRemaining of k+1 yields exactly k+1 further frames
and then a cleared acquire flag, given enough fuel. -/
lemma simTaskRun_countdown : ∀ (k : Nat) (fuel : Nat) (ts : TaskState),
    ts.det.params.acquire ≠ 0 →
    ts.det.imagesRemaining = (k : Int) + 1 → k + 1 ≤ fuel →
    (simTaskRun fuel ts).delivered = ts.delivered + (k + 1)
    ∧ (simTaskRun fuel ts).det.params.acquire = 0
    ∧ (simTaskRun fuel ts).det.imagesRemaining = 0 := by
  intro k
  induction k with
  | zero =>
      intro fuel ts h hir hf
      obtain ⟨i1, i2, i3⟩ := simTaskStep_counters ts
      have hstep : stepIR ts.det.imagesRemaining = 0 := by
        unfold stepIR
        rw [hir]
        norm_num
      have hacq : (simTaskStep ts).det.params.acquire = 0 := by
        rw [i3, hstep, if_pos rfl]
      have hir2 : (simTaskStep ts).det.imagesRemaining = 0 := by
        rw [i2, hstep]
      cases fuel with
      | zero => omega
      | succ n =>
          have hrun : simTaskRun (n + 1) ts
              = simTaskRun n (simTaskStep ts) := by
            simp only [simTaskRun]
            rw [if_pos h]
          rw [hrun, simTaskRun_stop n _ hacq, i1, hacq, hir2]
          exact ⟨rfl, rfl, rfl⟩
  | succ m ih =>
      intro fuel ts h hir hf
      obtain ⟨i1, i2, i3⟩ := simTaskStep_counters ts
      have hstep : stepIR ts.det.imagesRemaining = (m : Int) + 1 := by
        unfold stepIR
        rw [hir, if_pos (by omega)]
        push_cast
        omega
      have hacq : (simTaskStep ts).det.params.acquire
          = ts.det.params.acquire := by
        rw [i3, hstep, if_neg (by omega)]
      have hir2 : (simTaskStep ts).det.imagesRemaining = (m : Int) + 1 := by
        rw [i2, hstep]
      cases fuel with
      | zero => omega
      | succ n =>
          have hrun : simTaskRun (n + 1) ts
              = simTaskRun n (simTaskStep ts) := by
            simp only [simTaskRun]
            rw [if_pos h]
          obtain ⟨r1, r2, r3⟩ := ih n (simTaskStep ts)
            (by rw [hacq]; exact h) hir2 (by omega)
          rw [hrun, r1, r2, r3, i1]
          exact ⟨by omega, rfl, rfl⟩

/-- The external ADAcquire=1 write on the idle base state: the acquire
flag is stored first, then imagesRemaining is assigned from the mode. -/
lemma startTS_fields (imageMode numImages : Int) :
    (startTS imageMode numImages).det.params.acquire = 1
    ∧ (startTS imageMode numImages).delivered = 0
    ∧ (startTS imageMode numImages).det.imagesRemaining
        = modeImagesRemaining imageMode numImages 0 := by
  refine ⟨rfl, rfl, ?_⟩
  show (writeInt32 .adAcquire 1 (baseDet imageMode numImages)).1.imagesRemaining
    = modeImagesRemaining imageMode numImages 0
  simp only [writeInt32, setIntParam, baseDet]
  rw [if_pos]
  exact ⟨one_ne_zero, trivial⟩

/-- C3 (amended): starting acquisition while idle assigns
imagesRemaining from the mode (Single 1, Multiple its numImages,
Continuous -1); thereafter Single delivers exactly one frame and clears
the acquire flag, Multiple with at least one requested image delivers
exactly that many frames and clears the acquire flag, and Continuous
never self-stops, delivering one frame per loop iteration. -/
theorem countdown_law :
    (∀ numImages : Int,
      (startTS 0 numImages).det.imagesRemaining = 1
      ∧ ∀ fuel : Nat, 1 ≤ fuel →
          (simTaskRun fuel (startTS 0 numImages)).delivered = 1
          ∧ (simTaskRun fuel (startTS 0 numImages)).det.params.acquire = 0)
    ∧ (∀ numImages : Int,
        (startTS 1 numImages).det.imagesRemaining = numImages)
    ∧ (∀ numImages : Int, 1 ≤ numImages → ∀ fuel : Nat,
        numImages.toNat ≤ fuel →
          ((simTaskRun fuel (startTS 1 numImages)).delivered : Int)
            = numImages
          ∧ (simTaskRun fuel (startTS 1 numImages)).det.params.acquire = 0)
    ∧ (∀ numImages : Int,
      (startTS 2 numImages).det.imagesRemaining = -1
      ∧ ∀ fuel : Nat,
          (simTaskRun fuel (startTS 2 numImages)).delivered = fuel
          ∧ (simTaskRun fuel (startTS 2 numImages)).det.params.acquire
              ≠ 0) := by
  refine ⟨?_, ?_, ?_, ?_⟩
  · intro n
    obtain ⟨s1, s2, s3⟩ := startTS_fields 0 n
    have hir : (startTS 0 n).det.imagesRemaining = 1 := by
      rw [s3]
      norm_num [modeImagesRemaining]
    refine ⟨hir, ?_⟩
    intro fuel hf
    obtain ⟨r1, r2, r3⟩ := simTaskRun_countdown 0 fuel (startTS 0 n)
      (by rw [s1]; exact one_ne_zero)
      (by rw [hir]; norm_num) (by omega)
    exact ⟨by omega, r2⟩
  · intro n
    obtain ⟨s1, s2, s3⟩ := startTS_fields 1 n
    rw [s3]
    norm_num [modeImagesRemaining]
  · intro n hn fuel hf
    obtain ⟨s1, s2, s3⟩ := startTS_fields 1 n
    have hir : (startTS 1 n).det.imagesRemaining = n := by
      rw [s3]
      norm_num [modeImagesRemaining]
    obtain ⟨r1, r2, r3⟩ := simTaskRun_countdown (n.toNat - 1) fuel
      (startTS 1 n)
      (by rw [s1]; exact one_ne_zero)
      (by rw [hir]; omega) (by omega)
    constructor
    · rw [r1, s2]
      push_cast
      omega
    · exact r2
  · intro n
    obtain ⟨s1, s2, s3⟩ := startTS_fields 2 n
    have hir : (startTS 2 n).det.imagesRemaining = -1 := by
      rw [s3]
      norm_num [modeImagesRemaining]
    refine ⟨hir, ?_⟩
    intro fuel
    obtain ⟨r1, r2, r3⟩ := simTaskRun_unbounded fuel (startTS 2 n)
      (by rw [s1]; exact one_ne_zero) (by rw [hir]; norm_num)
    refine ⟨by omega, ?_⟩
    rw [r2, s1]
    exact one_ne_zero

/-- Counterexample for C3 as stated: in Multiple mode with zero images
requested, the loop still delivers one frame (the countdown is only
tested after a frame completes), so exactly-N fails at N = 0. -/
theorem countdown_multiple_zero_cex :
    (simTaskRun 3 (startTS 1 0)).delivered = 1 ∧ (1 : Nat) ≠ 0 := by
  with_unfolding_all decide

/-- Witness for C3 (amended): Multiple mode with two requested images
delivers exactly two frames and clears the acquire flag. -/
theorem countdown_law_witness :
    ((simTaskRun 3 (startTS 1 2)).delivered : Int) = 2
    ∧ (simTaskRun 3 (startTS 1 2)).det.params.acquire = 0 := by
  exact countdown_law.2.2.1 2 (by norm_num) 3 (by decide)

/-- C9: because the countdown is tested only after a frame completes,
Multiple mode with zero requested images still delivers exactly one
frame before the acquire flag is cleared, and with a negative request
the loop never self-stops, exactly like Continuous mode. -/
theorem multiple_zero_and_negative :
    ((startTS 1 0).det.imagesRemaining = 0
    ∧ ∀ fuel : Nat, 1 ≤ fuel →
        (simTaskRun fuel (startTS 1 0)).delivered = 1
        ∧ (simTaskRun fuel (startTS 1 0)).det.params.acquire = 0)
    ∧ (∀ numImages : Int, numImages < 0 → ∀ fuel : Nat,
        (simTaskRun fuel (startTS 1 numImages)).delivered = fuel
        ∧ (simTaskRun fuel (startTS 1 numImages)).det.params.acquire
            ≠ 0) := by
  constructor
  · obtain ⟨s1, s2, s3⟩ := startTS_fields 1 0
    have hir : (startTS 1 0).det.imagesRemaining = 0 := by
      rw [s3]
      norm_num [modeImagesRemaining]
    refine ⟨hir, ?_⟩
    intro fuel hf
    obtain ⟨r1, r2⟩ := simTaskRun_zero_ir (startTS 1 0)
      (by rw [s1]; exact one_ne_zero) hir fuel hf
    exact ⟨by omega, r2⟩
  · intro n hn fuel
    obtain ⟨s1, s2, s3⟩ := startTS_fields 1 n
    have hir : (startTS 1 n).det.imagesRemaining = n := by
      rw [s3]
      norm_num [modeImagesRemaining]
    obtain ⟨r1, r2, r3⟩ := simTaskRun_unbounded fuel (startTS 1 n)
      (by rw [s1]; exact one_ne_zero) (by rw [hir]; exact hn)
    refine ⟨by omega, ?_⟩
    rw [r2, s1]
    exact one_ne_zero

/-- Witness for C9: zero requested images deliver one frame and stop;
minus seven requested images keep the loop running forever. -/
theorem multiple_zero_and_negative_witness :
    ((simTaskRun 4 (startTS 1 0)).delivered = 1
    ∧ (simTaskRun 4 (startTS 1 0)).det.params.acquire = 0)
    ∧ ((simTaskRun 5 (startTS 1 (-7))).delivered = 5
    ∧ (simTaskRun 5 (startTS 1 (-7))).det.params.acquire ≠ 0) := by
  exact ⟨multiple_zero_and_negative.1.2 4 (by omega),
    multiple_zero_and_negative.2 (-7) (by norm_num) 5⟩

end SimDetector
